import Mathlib

/-!
Verification of the sentiment data-acquisition and fallback logic of
src/components/SentimentAnalyzer.tsx (memesense-ai).

The embedding models the React component state (timeframe, isLoading,
error, sentimentData) as an explicit record, and the async function
fetchSentimentData as a pure state transformer parameterised by the
remote response. Responses are either a transport failure (the error
half of the supabase invoke result) or a success payload whose fields
are all optional, mirroring the TypeScript shape. The try/catch control
flow of fetchSentimentData is captured by classifying a response into
one of three outcomes (live data, the thrown-error path, the
unrecognized-format path) exactly as lines 82 to 108 of the source do.
-/

namespace SentimentAnalyzer

/-- Market sentiment union type: bullish, bearish or neutral. -/
inductive MarketSentiment
  | bullish
  | bearish
  | neutral
deriving DecidableEq

/-- SentimentData record, the per-period observation shape of the source. -/
structure SentimentData where
  period : String
  value : Int
  sentiment : MarketSentiment
  tokens_launched : Nat
  tokens_over_100k : Nat
  tokens_over_1m : Nat
  profitable_tokens_percent : Int
deriving DecidableEq

/-- The three supported timeframes, 24h, 7d and 30d. -/
inductive Period
  | h24
  | d7
  | d30
deriving DecidableEq

/-- The string label of a timeframe as used in the source. -/
def Period.label : Period → String
  | .h24 => "24h"
  | .d7 => "7d"
  | .d30 => "30d"

/-- Shape of the mock data table: one record per timeframe key. -/
structure MockTable where
  sentiment24h : SentimentData
  sentiment7d : SentimentData
  sentiment30d : SentimentData
deriving DecidableEq

/-- Mock data used when the API call fails, lines 23 to 51 of the source. -/
def mockSentimentData : MockTable :=
  { sentiment24h :=
      { period := "24h", value := 75, sentiment := .bullish,
        tokens_launched := 42, tokens_over_100k := 18, tokens_over_1m := 8,
        profitable_tokens_percent := 65 }
    sentiment7d :=
      { period := "7d", value := 62, sentiment := .bullish,
        tokens_launched := 124, tokens_over_100k := 58, tokens_over_1m := 22,
        profitable_tokens_percent := 52 }
    sentiment30d :=
      { period := "30d", value := 48, sentiment := .neutral,
        tokens_launched := 380, tokens_over_100k := 160, tokens_over_1m := 65,
        profitable_tokens_percent := 43 } }

/-- Lookup of the mock record keyed by the requested period, the
bracket access on line 101 and 115 of the source. -/
def mockFor : Period → SentimentData
  | .h24 => mockSentimentData.sentiment24h
  | .d7 => mockSentimentData.sentiment7d
  | .d30 => mockSentimentData.sentiment30d

/-- The sentimentData React state: four optional record slots. -/
structure SentimentMap where
  sentiment : Option SentimentData
  sentiment24h : Option SentimentData
  sentiment7d : Option SentimentData
  sentiment30d : Option SentimentData
deriving DecidableEq

/-- The empty initial sentimentData state. -/
def SentimentMap.empty : SentimentMap := ⟨none, none, none, none⟩

/-- Success body of the remote call: an optional application error
string plus the four optional sentiment slots. -/
structure Payload where
  error : Option String
  sentiment : Option SentimentData
  sentiment24h : Option SentimentData
  sentiment7d : Option SentimentData
  sentiment30d : Option SentimentData
deriving DecidableEq

/-- Result of the supabase invoke call: either a transport failure with
a message, or a success payload. -/
inductive InvokeResult
  | failure (msg : String)
  | success (data : Payload)
deriving DecidableEq

/-- The full component state: selected timeframe, loading flag, error
message and the cached sentiment data. -/
structure WidgetState where
  timeframe : Period
  isLoading : Bool
  error : Option String
  sentimentData : SentimentMap
deriving DecidableEq

/-- Initial component state at mount: timeframe 24h, loading, no error,
empty data (lines 54 to 62 of the source). -/
def initialState : WidgetState :=
  { timeframe := .h24, isLoading := true, error := none,
    sentimentData := SentimentMap.empty }

/-- The truthiness test of line 95: at least one of the four sentiment
slots is present. -/
def hasSentimentField (d : Payload) : Bool :=
  d.sentiment.isSome || d.sentiment24h.isSome ||
  d.sentiment7d.isSome || d.sentiment30d.isSome

/-- JavaScript truthiness of the optional error string on line 87: an
absent field and an empty string are both falsy. -/
def truthyError : Option String → Bool
  | none => false
  | some m => !(m == "")

/-- Classified outcome of one fetch: live data accepted, the thrown
error path (transport failure or application error field), or the
unrecognized data format path. -/
inductive Outcome
  | live (d : Payload)
  | fallbackError (msg : String)
  | fallbackMalformed
deriving DecidableEq

/-- Whether an outcome is the live one. -/
def Outcome.isLive : Outcome → Bool
  | .live _ => true
  | .fallbackError _ => false
  | .fallbackMalformed => false

/-- Outcome classification of fetchSentimentData, lines 82 to 108: a
transport error throws with its message or a default; a truthy data
error field throws with that message; otherwise the payload is live
when some sentiment slot is present and unrecognized when none is. -/
def classify : InvokeResult → Outcome
  | .failure msg =>
      .fallbackError (if msg == "" then "Failed to fetch market data" else msg)
  | .success d =>
      if truthyError d.error then .fallbackError (d.error.getD "")
      else if hasSentimentField d then .live d
      else .fallbackMalformed

/-- Storing a live payload keeps exactly its four slots (line 96). -/
def payloadToMap (d : Payload) : SentimentMap :=
  ⟨d.sentiment, d.sentiment24h, d.sentiment7d, d.sentiment30d⟩

/-- The object written on both fallback paths (lines 100 to 105 and 114
to 119): the mock record of the requested period in the single slot and
the mock records of all three periods in the per-period slots. -/
def fallbackData (p : Period) : SentimentMap :=
  ⟨some (mockFor p), some mockSentimentData.sentiment24h,
   some mockSentimentData.sentiment7d, some mockSentimentData.sentiment30d⟩

/-- Start of fetchSentimentData, lines 69 and 70: set loading, clear
the error message. -/
def beginFetch (s : WidgetState) : WidgetState :=
  { s with isLoading := true, error := none }

/-- Completion of fetchSentimentData once the response is in, lines 82
to 124: the live branch stores the payload, the thrown-error branch
records the message and writes the fallback table, the unrecognized
branch writes the fallback table without touching the error state; the
finally block clears the loading flag on every path. -/
def resolveFetch (s : WidgetState) (p : Period) (r : InvokeResult) : WidgetState :=
  match classify r with
  | .live d => { s with isLoading := false, sentimentData := payloadToMap d }
  | .fallbackError msg =>
      { s with isLoading := false, error := some msg, sentimentData := fallbackData p }
  | .fallbackMalformed =>
      { s with isLoading := false, sentimentData := fallbackData p }

/-- One whole run of fetchSentimentData for a period, from the initial
setIsLoading and setError through the resolution of the response. -/
def fetchSentimentData (s : WidgetState) (p : Period) (r : InvokeResult) : WidgetState :=
  resolveFetch (beginFetch s) p r

/-- One point of the chart series, a name and a score. -/
structure ChartPoint where
  name : String
  sentiment : Int
deriving DecidableEq

/-- getChartData, lines 128 to 153: push a point for each of the three
per-period slots that is present, in the fixed order 24h, 7d, 30d. -/
def getChartData (m : SentimentMap) : List ChartPoint :=
  (match m.sentiment24h with
   | some d => [⟨"24h", d.value⟩]
   | none => []) ++
  (match m.sentiment7d with
   | some d => [⟨"7d", d.value⟩]
   | none => []) ++
  (match m.sentiment30d with
   | some d => [⟨"30d", d.value⟩]
   | none => [])

/-- currentSentiment, lines 172 to 175: the single sentiment slot when
present, otherwise the slot of the selected timeframe. -/
def currentSentiment (s : WidgetState) : Option SentimentData :=
  match s.sentimentData.sentiment with
  | some d => some d
  | none =>
      match s.timeframe with
      | .h24 => s.sentimentData.sentiment24h
      | .d7 => s.sentimentData.sentiment7d
      | .d30 => s.sentimentData.sentiment30d

/-- Canonical per-period lookup into the stored map. -/
def recordFor (p : Period) (m : SentimentMap) : Option SentimentData :=
  match p with
  | .h24 => m.sentiment24h
  | .d7 => m.sentiment7d
  | .d30 => m.sentiment30d

/-- Canonical per-period lookup into a payload. -/
def payloadRecordFor (p : Period) (d : Payload) : Option SentimentData :=
  match p with
  | .h24 => d.sentiment24h
  | .d7 => d.sentiment7d
  | .d30 => d.sentiment30d

/-- Events of the event-loop interleaving model: a timeframe selection
(which begins a fetch via the effect hook) and the arrival of the
response of an earlier fetch for some period. -/
inductive Event
  | select (p : Period)
  | arrive (p : Period) (r : InvokeResult)

/-- One event-loop step. A selection updates the timeframe and runs the
synchronous prefix of fetchSentimentData; an arriving response runs the
rest, with no check that the request is still the current one. -/
def step (s : WidgetState) : Event → WidgetState
  | .select p => beginFetch { s with timeframe := p }
  | .arrive p r => resolveFetch s p r

/-- Run a sequence of event-loop steps. -/
def runTrace (s : WidgetState) (es : List Event) : WidgetState :=
  es.foldl step s

/-- Well-formedness of a sentiment record as stated by the spec: the
token counts are nested and the two percentages lie in 0 to 100. -/
def validRecord (d : SentimentData) : Prop :=
  d.tokens_over_1m ≤ d.tokens_over_100k ∧
  d.tokens_over_100k ≤ d.tokens_launched ∧
  0 ≤ d.value ∧ d.value ≤ 100 ∧
  0 ≤ d.profitable_tokens_percent ∧ d.profitable_tokens_percent ≤ 100

instance (d : SentimentData) : Decidable (validRecord d) := by
  unfold validRecord
  infer_instance

/-! Concrete inputs used by witnesses and counterexamples. -/

/-- A live 24h record distinct from the mock one. -/
def liveRecord24 : SentimentData :=
  { period := "24h", value := 80, sentiment := .bullish,
    tokens_launched := 30, tokens_over_100k := 12, tokens_over_1m := 4,
    profitable_tokens_percent := 70 }

/-- A live 7d record distinct from the mock one. -/
def liveRecord7d : SentimentData :=
  { period := "7d", value := 99, sentiment := .bullish,
    tokens_launched := 10, tokens_over_100k := 5, tokens_over_1m := 2,
    profitable_tokens_percent := 50 }

/-- A payload carrying only a 24h record. -/
def payload24Only : Payload := ⟨none, none, some liveRecord24, none, none⟩

/-- A payload carrying only a 7d record. -/
def payload7dOnly : Payload := ⟨none, none, none, some liveRecord7d, none⟩

/-- The empty success payload, no error field and no sentiment slot. -/
def emptyPayload : Payload := ⟨none, none, none, none, none⟩

/-- A state that already caches a live 7d record. -/
def stateWith7d : WidgetState :=
  { timeframe := .h24, isLoading := false, error := none,
    sentimentData := ⟨none, none, some liveRecord7d, none⟩ }

/-- A state that already caches a live 24h record. -/
def stateWith24 : WidgetState :=
  { timeframe := .h24, isLoading := false, error := none,
    sentimentData := ⟨none, some liveRecord24, none, none⟩ }

/-- A state whose previous resolve left an error message set. -/
def erroredState : WidgetState :=
  { timeframe := .d7, isLoading := false, error := some "previous failure",
    sentimentData := SentimentMap.empty }

/-- A payload whose error field is set alongside no sentiment slot. -/
def appErrorPayload : Payload := ⟨some "boom", none, none, none, none⟩

/-- A record violating the token-nesting invariant: more tokens over
one million than over one hundred thousand. -/
def badRecord : SentimentData :=
  { period := "24h", value := 50, sentiment := .neutral,
    tokens_launched := 10, tokens_over_100k := 5, tokens_over_1m := 9,
    profitable_tokens_percent := 50 }

/-- A payload carrying the invariant-violating record in the 24h slot. -/
def badPayload : Payload := ⟨none, none, some badRecord, none, none⟩

/-- Reachable state built by a 30d fallback resolution followed by a
selection of 24h: the single sentiment slot holds the 30d mock record
while the selected timeframe is 24h. -/
def mismatchState : WidgetState :=
  runTrace initialState
    [.select .d30, .arrive .d30 (.failure "network timeout"), .select .h24]

/-- Interleaving with a stale response: the mount fetch for 24h is
outstanding, the user selects 7d, the 7d fetch resolves live, then the
slow 24h response arrives as a transport failure. -/
def raceTrace : List Event :=
  [.select .d7,
   .arrive .d7 (.success payload7dOnly),
   .arrive .h24 (.failure "network timeout")]

/-- Final state of the race interleaving. -/
def raceFinal : WidgetState := runTrace initialState raceTrace

/-! Theorems, one per claim. -/

/-- C10: every record of the static fallback table satisfies the
token-nesting invariant, has score and profitable percentage within 0
to 100, and carries the period label matching its key. -/
theorem C10_mock_table_valid :
    validRecord mockSentimentData.sentiment24h ∧
    mockSentimentData.sentiment24h.period = "24h" ∧
    validRecord mockSentimentData.sentiment7d ∧
    mockSentimentData.sentiment7d.period = "7d" ∧
    validRecord mockSentimentData.sentiment30d ∧
    mockSentimentData.sentiment30d.period = "30d" := by
  decide

/-- C7: getChartData lists one point per present per-period slot, in
the fixed canonical order 24h, 7d, 30d, skipping absent slots, and its
length never exceeds three. -/
theorem C7_chart_series_canonical (m : SentimentMap) :
    getChartData m =
      ([Period.h24, Period.d7, Period.d30].filterMap fun p =>
        (recordFor p m).map fun d => ChartPoint.mk p.label d.value) ∧
    (getChartData m).length ≤ 3 := by
  obtain ⟨s0, a, b, c⟩ := m
  cases a <;> cases b <;> cases c <;>
    simp [getChartData, recordFor, Period.label]

/-- C6 (code evaluated at the failing input): a payload whose 24h
record violates the token-nesting invariant is classified live and
stored unchanged, with no error recorded; the source performs no
validation of the invariant. -/
theorem C6_invariant_not_validated :
    ¬ validRecord badRecord ∧
    classify (.success badPayload) = .live badPayload ∧
    recordFor .h24 (fetchSentimentData initialState .h24 (.success badPayload)).sentimentData
      = some badRecord ∧
    (fetchSentimentData initialState .h24 (.success badPayload)).error = none := by
  decide

/-- C2 (code evaluated at the failing input): after the newer 7d fetch
resolved live, the stale 24h transport failure is still written: the
stored 7d record regresses from the live record to the mock one and the
error message of the stale request is recorded. -/
theorem C2_stale_response_written :
    recordFor .d7 (runTrace initialState (raceTrace.take 2)).sentimentData
      = some liveRecord7d ∧
    recordFor .d7 raceFinal.sentimentData = some mockSentimentData.sentiment7d ∧
    recordFor .d7 raceFinal.sentimentData ≠ some liveRecord7d ∧
    raceFinal.error = some "network timeout" := by
  decide

/-- C1 counterexample: with a live 7d record cached, resolving a live
fetch for 24h whose payload carries only a 24h record discards the 7d
record, so a fetch for one period does not leave other periods
unchanged. -/
theorem C1_other_period_discarded :
    recordFor .d7 stateWith7d.sentimentData = some liveRecord7d ∧
    recordFor .d7
      (fetchSentimentData stateWith7d .h24 (.success payload24Only)).sentimentData
      = none := by
  decide

/-- C1 amended: resolving a fetch replaces the whole records mapping;
afterwards the record under any period q is the payload entry for q on
the live path and the mock record for q on the transport-failure path,
regardless of what was cached before. -/
theorem C1_resolution_replaces_map (s : WidgetState) (p q : Period)
    (d : Payload) (msg : String) (h : classify (.success d) = .live d) :
    recordFor q (fetchSentimentData s p (.success d)).sentimentData
      = payloadRecordFor q d ∧
    recordFor q (fetchSentimentData s p (.failure msg)).sentimentData
      = some (mockFor q) := by
  constructor
  · unfold fetchSentimentData resolveFetch
    rw [h]
    cases q <;> rfl
  · cases q <;> rfl

/-- Witness for C1 amended at the concrete discarding scenario. -/
theorem C1_resolution_replaces_map_witness :
    recordFor .d7
      (fetchSentimentData stateWith7d .h24 (.success payload24Only)).sentimentData
      = payloadRecordFor .d7 payload24Only ∧
    recordFor .d7
      (fetchSentimentData stateWith7d .h24 (.failure "network timeout")).sentimentData
      = some (mockFor .d7) :=
  C1_resolution_replaces_map stateWith7d .h24 .d7 payload24Only "network timeout"
    (by decide)

/-- C3 counterexample: a fallback resolution for 30d overwrites the
already-present live 24h record with the mock 24h record, so seeding is
not restricted to periods with no record yet. -/
theorem C3_seeding_overwrites :
    recordFor .h24 stateWith24.sentimentData = some liveRecord24 ∧
    recordFor .h24
      (fetchSentimentData stateWith24 .d30 (.failure "network timeout")).sentimentData
      = some mockSentimentData.sentiment24h ∧
    liveRecord24 ≠ mockSentimentData.sentiment24h := by
  decide

/-- C3 amended: on any non-live outcome, the resolution stores the mock
records for all three periods unconditionally, overwriting any existing
records, and puts the requested period's mock record in the single
sentiment slot. -/
theorem C3_fallback_stores_whole_table (s : WidgetState) (p : Period)
    (r : InvokeResult) (h : (classify r).isLive = false) :
    (fetchSentimentData s p r).sentimentData = fallbackData p := by
  unfold fetchSentimentData resolveFetch
  cases hc : classify r with
  | live d => rw [hc] at h; exact absurd h (by simp [Outcome.isLive])
  | fallbackError m => rfl
  | fallbackMalformed => rfl

/-- Witness for C3 amended at the concrete overwriting scenario. -/
theorem C3_fallback_stores_whole_table_witness :
    (fetchSentimentData stateWith24 .d30 (.failure "network timeout")).sentimentData
      = fallbackData .d30 :=
  C3_fallback_stores_whole_table stateWith24 .d30 (.failure "network timeout")
    (by decide)

/-- C4 counterexample: resolving an empty success payload takes the
unrecognized-format fallback path yet leaves the error state unset. -/
theorem C4_malformed_leaves_error_unset :
    classify (.success emptyPayload) = .fallbackMalformed ∧
    (fetchSentimentData initialState .h24 (.success emptyPayload)).error = none := by
  decide

/-- C4 amended: the error state is set to the failure message on the
transport-failure and application-error fallback paths, but is left
unset on the unrecognized-format fallback path. -/
theorem C4_error_only_on_thrown_paths (s : WidgetState) (p : Period)
    (d dm : Payload) (msg em : String)
    (hm : msg ≠ "") (he : d.error = some em) (hem : em ≠ "")
    (h1 : hasSentimentField dm = false) (h2 : truthyError dm.error = false) :
    (fetchSentimentData s p (.failure msg)).error = some msg ∧
    (fetchSentimentData s p (.success d)).error = some em ∧
    (fetchSentimentData s p (.success dm)).error = none := by
  refine ⟨?_, ?_, ?_⟩
  · simp [fetchSentimentData, resolveFetch, classify, hm]
  · have ht : truthyError (some em) = true := by simp [truthyError, hem]
    simp [fetchSentimentData, resolveFetch, classify, he, ht, beginFetch]
  · simp [fetchSentimentData, resolveFetch, classify, h1, h2, beginFetch]

/-- Witness for C4 amended at concrete inputs for the three paths. -/
theorem C4_error_only_on_thrown_paths_witness :
    (fetchSentimentData initialState .h24 (.failure "network timeout")).error
      = some "network timeout" ∧
    (fetchSentimentData initialState .h24 (.success appErrorPayload)).error
      = some "boom" ∧
    (fetchSentimentData initialState .h24 (.success emptyPayload)).error = none :=
  C4_error_only_on_thrown_paths initialState .h24 appErrorPayload emptyPayload
    "network timeout" "boom" (by decide) (by decide) (by decide) (by decide)
    (by decide)

/-- C5: on an error-free payload the outcome is live exactly when some
sentiment slot is present; an error-free payload with no slot present
is classified as the unrecognized-format fallback; a transport failure
and a truthy application error field both yield the same thrown-error
outcome, differing only in the message. -/
theorem C5_outcome_classification (d dm e : Payload) (msg em : String)
    (hd : truthyError d.error = false)
    (hdm : truthyError dm.error = false) (hm0 : hasSentimentField dm = false)
    (hm : msg ≠ "") (he : e.error = some em) (hem : em ≠ "") :
    (classify (.success d) = .live d ↔ hasSentimentField d = true) ∧
    classify (.success dm) = .fallbackMalformed ∧
    classify (.failure msg) = .fallbackError msg ∧
    classify (.success e) = .fallbackError em := by
  refine ⟨?_, ?_, ?_, ?_⟩
  · cases hs : hasSentimentField d <;> simp [classify, hd, hs]
  · simp [classify, hdm, hm0]
  · simp [classify, hm]
  · have ht : truthyError (some em) = true := by simp [truthyError, hem]
    simp [classify, he, ht]

/-- Witness for C5 at concrete payloads for each classification path. -/
theorem C5_outcome_classification_witness :
    (classify (.success payload24Only) = .live payload24Only ↔
      hasSentimentField payload24Only = true) ∧
    classify (.success emptyPayload) = .fallbackMalformed ∧
    classify (.failure "network timeout") = .fallbackError "network timeout" ∧
    classify (.success appErrorPayload) = .fallbackError "boom" :=
  C5_outcome_classification payload24Only emptyPayload appErrorPayload
    "network timeout" "boom" (by decide) (by decide) (by decide) (by decide)
    (by decide) (by decide)

/-- C8 counterexample: in the reachable state built by a 30d fallback
followed by selecting 24h, currentSentiment returns the mock 30d record
although the selected timeframe is 24h and a different record is stored
under the 24h slot, so a record of another period is returned. -/
theorem C8_returns_other_period :
    currentSentiment mismatchState = some mockSentimentData.sentiment30d ∧
    mismatchState.timeframe = .h24 ∧
    recordFor .h24 mismatchState.sentimentData = some mockSentimentData.sentiment24h ∧
    mockSentimentData.sentiment30d ≠ mockSentimentData.sentiment24h ∧
    mockSentimentData.sentiment30d.period = "30d" := by
  decide

/-- C8 amended: currentSentiment returns the single sentiment slot
whenever it is populated, regardless of the selected timeframe; only
when that slot is empty does it return exactly the record stored under
the selected timeframe, or none when absent. -/
theorem C8_current_record_lookup (s t : WidgetState) (d : SentimentData)
    (h : s.sentimentData.sentiment = none)
    (ht : t.sentimentData.sentiment = some d) :
    currentSentiment s = recordFor s.timeframe s.sentimentData ∧
    currentSentiment t = some d := by
  constructor
  · unfold currentSentiment recordFor
    rw [h]
  · unfold currentSentiment
    rw [ht]

/-- Witness for C8 amended on a slot-empty and a slot-full state. -/
theorem C8_current_record_lookup_witness :
    currentSentiment stateWith24
      = recordFor stateWith24.timeframe stateWith24.sentimentData ∧
    currentSentiment mismatchState = some mockSentimentData.sentiment30d :=
  C8_current_record_lookup stateWith24 mismatchState
    mockSentimentData.sentiment30d (by decide) (by decide)

/-- C9: for every prior state, including one whose previous resolve set
an error message, resolving a live payload that carries a record for
the requested period stores that record under the period and leaves the
error state cleared. -/
theorem C9_live_stores_and_clears_error (s : WidgetState) (p : Period)
    (d : Payload) (rec : SentimentData)
    (hc : classify (.success d) = .live d)
    (hr : payloadRecordFor p d = some rec) :
    recordFor p (fetchSentimentData s p (.success d)).sentimentData = some rec ∧
    (fetchSentimentData s p (.success d)).error = none := by
  constructor
  · unfold fetchSentimentData resolveFetch
    rw [hc]
    cases p <;> simpa [recordFor, payloadToMap] using hr
  · unfold fetchSentimentData resolveFetch
    rw [hc]
    rfl

/-- Witness for C9: a live 24h resolution on a state whose error was
previously set stores the record and ends with the error cleared. -/
theorem C9_live_stores_and_clears_error_witness :
    recordFor .h24
      (fetchSentimentData erroredState .h24 (.success payload24Only)).sentimentData
      = some liveRecord24 ∧
    (fetchSentimentData erroredState .h24 (.success payload24Only)).error = none :=
  C9_live_stores_and_clears_error erroredState .h24 payload24Only liveRecord24
    (by decide) (by decide)

end SentimentAnalyzer
